import Mathlib

/-!
Verification of the melange consumption/dispatch pipeline.

Shallow embedding of:
  - `SimpleConsumer._dispatch_message`, `SimpleConsumer.consume_event` and
    `SimpleConsumer.consume_loop` (src/melange/consumer.py),
  - `Consumer.listens_to` / `Consumer.accepts` (src/melange/consumer.py),
  - `ElasticMQBackend._construct_message`, `queue_publish` and
    `_create_queue` (src/melange/backends/sqs/elasticmq.py),
  - `AWSDriver.declare_queue` (src/melange/drivers/aws/aws_driver.py),
  - `MessageConsumer._get_next_event`
    (src/src/main/melange/aws/message_consumer.py),
  - `Event.__init__` (src/geeteventbus/event.py).

Python exceptions are modelled with `Except`, Python dictionaries with
association lists, and the JSON values the system exchanges with `JsonVal`.
-/

namespace Melange

/-- Normalized transport unit handed to the dispatcher
(`melange.backends.interfaces.Message` as used by `_dispatch_message`):
an infrastructure-assigned `message_id`, the raw content and the manifest
returned by `get_message_manifest()`.  The content type is a parameter
because the dispatcher never inspects it, it only hands it to the
serializer. -/
structure Msg (γ : Type) where
  message_id : String
  content : γ
  manifest : String
deriving Repr, DecidableEq

/-- Environment of a `SimpleConsumer`: its fully qualified identity string
(the value of `get_fully_qualified_name(self)`, modelled abstractly since
`melange/utils.py` is not part of the sources), the serializer
(`deserialize` may raise, modelled by `Except`), the registered processing
function (`self.process`; may raise), and whether `cache.store` succeeds on
a given key (`store` may raise, e.g. on a backing-store failure). -/
structure DispatchEnv (γ α : Type) where
  identity : String
  deserialize : γ → String → Except Unit α
  handler : α → String → Except Unit Unit
  storeOk : String → Bool

/-- Dedup cache content. Modelled from the spec: `melange/infrastructure/cache.py`
is not among the sources; per spec section 4.3 the cache contract is a
membership test `key in cache` and `store(key, value)`.  We model the cache
as the list of stored keys (retention expiry is irrelevant to the claims). -/
abbrev DedupCache : Type := List String

/-- Dedup key built at consumer.py line 101:
`get_fully_qualified_name(self) + "." + message.message_id`. -/
def dedupKey (identity message_id : String) : String :=
  identity ++ "." ++ message_id

/-- Observable outcome of one `_dispatch_message` call: which collaborators
were invoked, whether the duplicate log line was emitted, whether the
message was acknowledged, whether an exception escaped the call, and the
cache afterwards. -/
structure DispatchTrace where
  deserializeCalled : Bool
  handlerCalled : Bool
  duplicateLogged : Bool
  stored : Bool
  acked : Bool
  raised : Bool
  cacheAfter : DedupCache
deriving Repr

/-- Embedding of `SimpleConsumer._dispatch_message` (consumer.py lines
92-113).  Control flow of the source: the manifest is read and the content
deserialized first (lines 93-96, outside any handler — a serializer error
escapes the method); then, inside a `try`, the dedup key is built, the
cache is consulted, and on a miss the handler runs, `successful` is set and
the key is stored (a handler or store error is caught and logged); finally
the message is acknowledged iff `successful` was set. -/
def dispatchMessage {γ α : Type} (env : DispatchEnv γ α) (cache : DedupCache)
    (m : Msg γ) : DispatchTrace :=
  match env.deserialize m.content m.manifest with
  | .error _ =>
      -- the exception from `deserialize` escapes `_dispatch_message`
      { deserializeCalled := true, handlerCalled := false,
        duplicateLogged := false, stored := false, acked := false,
        raised := true, cacheAfter := cache }
  | .ok data =>
      let key := dedupKey env.identity m.message_id
      if key ∈ cache then
        -- "detected a duplicated message, ignoring"
        { deserializeCalled := true, handlerCalled := false,
          duplicateLogged := true, stored := false, acked := false,
          raised := false, cacheAfter := cache }
      else
        match env.handler data m.message_id with
        | .error _ =>
            -- handler raised: caught and logged; `successful` stays False
            { deserializeCalled := true, handlerCalled := true,
              duplicateLogged := false, stored := false, acked := false,
              raised := false, cacheAfter := cache }
        | .ok _ =>
            -- `successful = True` is set before `cache.store`
            if env.storeOk key then
              { deserializeCalled := true, handlerCalled := true,
                duplicateLogged := false, stored := true, acked := true,
                raised := false, cacheAfter := key :: cache }
            else
              -- `cache.store` raised: caught and logged; still acked
              { deserializeCalled := true, handlerCalled := true,
                duplicateLogged := false, stored := false, acked := true,
                raised := false, cacheAfter := cache }

/-- Outcome of one `consume_event` call: the ids of the messages on which
`_dispatch_message` was attempted, in order, and the cache afterwards. -/
structure ConsumeTrace where
  attempted : List String
  cacheAfter : DedupCache
deriving Repr

/-- Embedding of the per-batch loop of `SimpleConsumer.consume_event`
(consumer.py lines 86-90): each message is dispatched inside a `try`
whose `except` logs any exception, so every message of the batch is
attempted regardless of earlier failures. -/
def consumeBatch {γ α : Type} (env : DispatchEnv γ α) (cache : DedupCache) :
    List (Msg γ) → ConsumeTrace
  | [] => { attempted := [], cacheAfter := cache }
  | m :: rest =>
      let t := dispatchMessage env cache m
      let r := consumeBatch env t.cacheAfter rest
      { attempted := m.message_id :: r.attempted, cacheAfter := r.cacheAfter }

/-- State threaded through iterations of `consume_loop`: the cache, the
number of poll iterations performed, and all message ids attempted so
far. -/
structure LoopState where
  cache : DedupCache
  polls : Nat
  attempted : List String
deriving Repr

/-- One iteration of `SimpleConsumer.consume_loop` (consumer.py lines
70-79): `consume_event` (retrieval and batch processing) runs inside a
`try`; an exception escaping the whole iteration — e.g. a retrieval
error, modelled by the batch for that iteration being `Except.error` — is
caught and logged at the loop boundary, so the loop proceeds to the next
poll. -/
def loopIter {γ α : Type} (env : DispatchEnv γ α)
    (batch : Except Unit (List (Msg γ))) (st : LoopState) : LoopState :=
  match batch with
  | .error _ =>
      { st with polls := st.polls + 1 }
  | .ok msgs =>
      let t := consumeBatch env st.cache msgs
      { cache := t.cacheAfter, polls := st.polls + 1,
        attempted := st.attempted ++ t.attempted }

/-- The first `n` iterations of the `while True:` loop of `consume_loop`,
with `batches i` the result of retrieval at iteration `i`. -/
def consumeLoopN {γ α : Type} (env : DispatchEnv γ α)
    (batches : Nat → Except Unit (List (Msg γ))) : Nat → LoopState
  | 0 => { cache := [], polls := 0, attempted := [] }
  | n + 1 => loopIter env (batches n) (consumeLoopN env batches n)

/-- JSON values as exchanged by the system: strings and objects, the two
shapes produced by `json.dumps` in `queue_publish` and by the
topic-forwarding envelope.  Objects are association lists of fields. -/
inductive JsonVal : Type where
  | str (s : String)
  | obj (fields : List (String × JsonVal))
deriving Repr

/-- Python dict lookup on an association list (first matching key). -/
def alget {β : Type} : List (String × β) → String → Option β
  | [], _ => none
  | (k, v) :: rest, key => if k = key then some v else alget rest key

/-- Python membership test `key in v` for the JSON shapes we model: key
presence for a dict, substring test for a string. -/
def pyInJ (key : String) : JsonVal → Bool
  | .obj fields => (alget fields key).isSome
  | .str s => (s.splitOn key).length > 1

/-- Python subscription `v[key]`: field access on a dict (KeyError when
absent), TypeError on a string (string indices are integers). -/
def pyIndex (v : JsonVal) (key : String) : Except Unit JsonVal :=
  match v with
  | .obj fields =>
      match alget fields key with
      | some x => .ok x
      | none => .error ()
  | .str _ => .error ()

/-- Python `v.get(key, default)`: defined on dicts, AttributeError on a
string. -/
def dotGetD (v : JsonVal) (key : String) (dflt : JsonVal) : Except Unit JsonVal :=
  match v with
  | .obj fields => .ok ((alget fields key).getD dflt)
  | .str _ => .error ()

/-- Python `v.get(key)` returning None when absent; AttributeError on a
string. -/
def dotGet (v : JsonVal) (key : String) : Except Unit (Option JsonVal) :=
  match v with
  | .obj fields => .ok (alget fields key)
  | .str _ => .error ()

/-- Python `a or b or ""` for the manifest fallback chains of
`_construct_message`, with None and the empty string falsy. -/
def pyOrStr (a : String) (b : Option String) : String :=
  if a = "" then b.getD "" else a

/-- Transport-level message attributes of an SQS message
(`message.message_attributes`): attribute name to the fields of its value
record, e.g. DataType and StringValue.  Attribute values are strings per
the wire contract. -/
abbrev TransportAttrs : Type := List (String × List (String × String))

/-- Raw SQS message as seen by `_construct_message`: the infrastructure
message id, the outcome of `json.loads` on the body (`Except.error`
carries the raw body on a JSONDecodeError) and the transport-level
message attributes. -/
structure RawMessage where
  message_id : String
  body : Except String JsonVal
  message_attributes : TransportAttrs

/-- Nested manifest extraction of `_construct_message` (elasticmq.py lines
224-229): `message_content["MessageAttributes"].get("event_type", \x7b\x7d).get("Value") or ""`.
The event_type Value entry is a string per the envelope wire contract
(spec section 6); a non-string Value is outside the contract and treated
as absent. -/
def nestedManifest (mav : JsonVal) : Except Unit String := do
  let et ← dotGetD mav "event_type" (.obj [])
  let v ← dotGet et "Value"
  pure (match v with
        | some (.str s) => s
        | _ => "")

/-- Manifest from `message.message_attributes.get("event_type", \x7b\x7d).get("StringValue")`
(elasticmq.py lines 235-239). -/
def transportManifest (attrs : TransportAttrs) : Option String :=
  match alget attrs "event_type" with
  | some fields => alget fields "StringValue"
  | none => none

/-- Embedding of `ElasticMQBackend._construct_message` (elasticmq.py lines
214-241).  The body is parsed (a JSONDecodeError makes the raw body the
content verbatim); a parsed structure with a "Message" field is unwrapped,
and when it also carries a "MessageAttributes" bag the manifest is read
from there; otherwise the parsed structure itself is the content.  Finally
the manifest falls back to the transport-level attributes through the
Python or-chain.  `Except.error` models an exception escaping the method
on shapes outside the wire contract. -/
def constructMessage (m : RawMessage) : Except Unit (Msg JsonVal) := do
  let cm ←
    match m.body with
    | .error raw => pure (JsonVal.str raw, "")
    | .ok mc =>
        if pyInJ "Message" mc then do
          let content ← pyIndex mc "Message"
          if pyInJ "MessageAttributes" mc then do
            let mav ← pyIndex mc "MessageAttributes"
            let man ← nestedManifest mav
            pure (content, man)
          else
            pure (content, "")
        else
          pure (mc, "")
  let manifest := pyOrStr cm.2 (transportManifest m.message_attributes)
  pure { message_id := m.message_id, content := cm.1, manifest := manifest }

/-- Body sent by `ElasticMQBackend.queue_publish` (elasticmq.py line 158):
`json.dumps(\x7b"Message": content\x7d)`, as it parses back on retrieval. -/
def queuePublishBody (content : String) : JsonVal :=
  .obj [("Message", .str content)]

/-- Transport attributes attached by `queue_publish` (elasticmq.py lines
160-163): an event_type attribute only when `event_type_name` is truthy
(neither None nor empty). -/
def queuePublishAttrs (event_type_name : Option String) : TransportAttrs :=
  match event_type_name with
  | some n =>
      if n = "" then []
      else [("event_type", [("DataType", "String"), ("StringValue", n)])]
  | none => []

/-- Body of a message that went through topic fan-out (non-raw forwarding
envelope, spec section 6): a nested "Message" field holding the published
content and a "MessageAttributes" bag holding the event_type entry with
its string Value, as attached by `publish` (elasticmq.py lines 180-185). -/
def envelopeBody (content man : String) : JsonVal :=
  .obj [("Message", .str content),
        ("MessageAttributes",
         .obj [("event_type",
                .obj [("Type", .str "String"), ("Value", .str man)])])]

/-- Raw message as delivered through the topic-forwarding envelope: the
manifest travels inside the body, the transport attribute bag is empty. -/
def envelopeRaw (id content man : String) : RawMessage :=
  { message_id := id, body := .ok (envelopeBody content man),
    message_attributes := [] }

/-- Raw message as delivered after a direct `queue_publish` with the given
manifest as `event_type_name`. -/
def directRaw (id content man : String) : RawMessage :=
  { message_id := id, body := .ok (queuePublishBody content),
    message_attributes := queuePublishAttrs (some man) }

/-- Python `s.endswith(pat)`, as a suffix test on the character lists. -/
def pyEndsWith (s pat : String) : Bool :=
  pat.toList.isSuffixOf s.toList

/-- Queue attributes set by `ElasticMQBackend._create_queue` (elasticmq.py
lines 118-128): for a name ending in ".fifo" the queue is created with
FifoQueue true and ContentBasedDeduplication reflecting the keyword
argument truthiness; otherwise no attributes (a standard queue). -/
def elasticCreateQueueAttrs (queue_name : String)
    (content_based_deduplication : Bool) : List (String × String) :=
  if pyEndsWith queue_name ".fifo" then
    [("FifoQueue", "true"),
     ("ContentBasedDeduplication",
      if content_based_deduplication then "true" else "false")]
  else []

/-- Attributes of the queue created on the creation path of
`ElasticMQBackend.declare_queue` (elasticmq.py line 94), which calls
`_create_queue` with content_based_deduplication set to the truthy string
value true. -/
def elasticDeclareCreateAttrs (queue_name : String) : List (String × String) :=
  elasticCreateQueueAttrs queue_name true

/-- Queue attributes set by `AWSDriver.declare_queue` (aws_driver.py line
29): `create_queue(QueueName=queue_name)` passes no Attributes argument at
all, whatever the queue name. -/
def awsDeclareQueueAttrs (_queue_name : String) : List (String × String) :=
  []

/-- Key of the singledispatch registry `Consumer._process.registry`: the
base `object` fallback entry that is always present, or a registered
event class carrying its name. -/
inductive PyType : Type where
  | object
  | cls (name : String)
deriving DecidableEq, Repr

/-- Python `__name__` of a registry key. -/
def typeName : PyType → String
  | .object => "object"
  | .cls n => n

/-- Embedding of `Consumer.listens_to` (consumer.py lines 29-31): filter
out the `object` fallback entry, keep the class names. -/
def listens_to (registry : List PyType) : List String :=
  (registry.filter (fun t => t ≠ PyType.object)).map typeName

/-- Python membership `manifest in listens_to()` where the manifest is
Optional: None is never a member of a list of strings. -/
def pyInList (manifest : Option String) (l : List String) : Bool :=
  match manifest with
  | some s => l.contains s
  | none => false

/-- Embedding of `Consumer.accepts` (consumer.py lines 33-39):
`not self.listens_to() or manifest in self.listens_to()`, the empty list
being falsy. -/
def accepts (registry : List PyType) (manifest : Option String) : Bool :=
  decide (listens_to registry = []) || pyInList manifest (listens_to registry)

/-- Retrieved message of the legacy consumer
(src/src/main/melange/aws/message_consumer.py): id and raw body string. -/
structure LegacyMsg where
  message_id : String
  body : String
deriving Repr, DecidableEq

/-- Outcome of `MessageConsumer._get_next_event`: the ids of the messages
deleted from the queue during the call, and the deserialized event when
one was returned. -/
structure LegacyResult (ε : Type) where
  deleted : List String
  result : Option ε
deriving Repr

/-- Embedding of `MessageConsumer._get_next_event` (message_consumer.py
lines 52-77), parameterized by the JSON parser and the event serializer.
The source reads the body and calls `message.delete()` before any parsing
(line 60); every path of the loop body then returns or raises, and any
exception is caught and turns into a None return, so at most the first
message of the batch is examined — but it has already been deleted. -/
def legacyGetNextEvent {ε : Type} (jsonLoads : String → Except Unit JsonVal)
    (deserialize : JsonVal → Except Unit ε) :
    List LegacyMsg → LegacyResult ε
  | [] => { deleted := [], result := none }
  | m :: _rest =>
      match jsonLoads m.body with
      | .error _ => { deleted := [m.message_id], result := none }
      | .ok mc =>
          let contentE : Except Unit JsonVal :=
            if pyInJ "Message" mc then
              match pyIndex mc "Message" with
              | .ok (.str s) => jsonLoads s
              | .ok (.obj _) => .error ()
              | .error e => .error e
            else .ok mc
          match contentE with
          | .error _ => { deleted := [m.message_id], result := none }
          | .ok content =>
              if pyInJ "event_type_name" content then
                match deserialize content with
                | .ok ev => { deleted := [m.message_id], result := some ev }
                | .error _ => { deleted := [m.message_id], result := none }
              else
                { deleted := [m.message_id], result := none }

/-- Python runtime values an `Event` constructor argument can take. -/
inductive PyVal : Type where
  | vNone
  | vStr (s : String)
  | vInt (n : Int)
deriving DecidableEq, Repr

/-- Python exception raised out of `Event.__init__`. -/
inductive PyErr : Type where
  | typeError (msg : String)
  | valueError (msg : String)
deriving DecidableEq, Repr

/-- Constructed event object (occurred_on, a wall-clock timestamp, is not
modelled). -/
structure EventObj where
  topic : String
  event_type_name : String
  ordered : PyVal
  event_version : Option Int
deriving DecidableEq, Repr

/-- Embedding of `Event.__init__` (src/geeteventbus/event.py lines 10-20).
When `ordered` is neither None nor a string, the source first evaluates
the logging argument, a concatenation of a string literal with the type
object, which raises a TypeError — so the raise-ValueError statement on
the next line is never reached. -/
def eventInit (topic event_type_name : String) (ordered : PyVal)
    (event_version : Option Int) : Except PyErr EventObj :=
  match ordered with
  | .vNone =>
      .ok { topic := topic, event_type_name := event_type_name,
            ordered := ordered, event_version := event_version }
  | .vStr _ =>
      .ok { topic := topic, event_type_name := event_type_name,
            ordered := ordered, event_version := event_version }
  | _ =>
      .error (.typeError "can only concatenate str (not type) to str")

/-- Demo consumer environment for concrete runs: the serializer maps the
content string to its length, the handler always succeeds, the cache store
always succeeds. -/
def demoEnv : DispatchEnv String Nat :=
  { identity := "app.Consumer", deserialize := fun c _ => Except.ok c.length,
    handler := fun _ _ => Except.ok (), storeOk := fun _ => true }

/-- Demo environment whose serializer raises on every message. -/
def demoEnvDesFail : DispatchEnv String Nat :=
  { identity := "app.Consumer", deserialize := fun _ _ => Except.error (),
    handler := fun _ _ => Except.ok (), storeOk := fun _ => true }

/-- Demo environment whose handler raises on every message. -/
def demoEnvProcFail : DispatchEnv String Nat :=
  { identity := "app.Consumer", deserialize := fun c _ => Except.ok c.length,
    handler := fun _ _ => Except.error (), storeOk := fun _ => true }

/-- Demo environment whose cache store raises on every key. -/
def demoEnvStoreFail : DispatchEnv String Nat :=
  { identity := "app.Consumer", deserialize := fun c _ => Except.ok c.length,
    handler := fun _ _ => Except.ok (), storeOk := fun _ => false }

/-- Demo JSON parser for concrete runs: rejects the malformed body used in
the concrete counterexample, accepts an empty object otherwise. -/
def demoParse : String → Except Unit JsonVal :=
  fun s => if s = "not json" then Except.error () else Except.ok (.obj [])

/-- Helper: the Python or-chain with an absent second operand returns the
first operand unchanged (also when it is empty). -/
theorem pyOrStr_none (a : String) : pyOrStr a none = a := by
  unfold pyOrStr
  by_cases h : a = "" <;> simp [h]

/-- Claim C1: when a consumer processes a message successfully for the
first time (cache miss, serializer, handler and cache store all succeed),
the dedup cache afterwards contains the key built from the consumer
identity, a dot and the message id; and a subsequent dispatch of any
message bearing the same message id to the same consumer invokes no
handler. -/
theorem dedup_first_success_then_skip {γ α : Type} (env : DispatchEnv γ α)
    (cache : DedupCache) (m : Msg γ) (d : α)
    (hmiss : dedupKey env.identity m.message_id ∉ cache)
    (hdes : env.deserialize m.content m.manifest = Except.ok d)
    (hproc : env.handler d m.message_id = Except.ok ())
    (hstore : env.storeOk (dedupKey env.identity m.message_id) = true) :
    dedupKey env.identity m.message_id ∈ (dispatchMessage env cache m).cacheAfter ∧
    ∀ m2 : Msg γ, m2.message_id = m.message_id →
      (dispatchMessage env (dispatchMessage env cache m).cacheAfter m2).handlerCalled
        = false := by
  have h1 : dispatchMessage env cache m =
      { deserializeCalled := true, handlerCalled := true, duplicateLogged := false,
        stored := true, acked := true, raised := false,
        cacheAfter := dedupKey env.identity m.message_id :: cache } := by
    unfold dispatchMessage
    rw [hdes]
    simp only []
    rw [if_neg hmiss, hproc, if_pos hstore]
  constructor
  · rw [h1]
    exact List.mem_cons_self _ _
  · intro m2 hm2
    rw [h1]
    unfold dispatchMessage
    cases hd2 : env.deserialize m2.content m2.manifest with
    | error e => simp
    | ok d2 =>
      have hmem : dedupKey env.identity m2.message_id ∈
          dedupKey env.identity m.message_id :: cache := by
        rw [hm2]; exact List.mem_cons_self _ _
      simp [hmem]

/-- Witness for claim C1 at a concrete input: a fresh cache, the demo
environment and message m1. -/
theorem dedup_first_success_then_skip_witness :
    dedupKey "app.Consumer" "m1" ∉ ([] : DedupCache) ∧
    demoEnv.deserialize "hello" "Ev" = Except.ok 5 ∧
    (dedupKey "app.Consumer" "m1" ∈
        (dispatchMessage demoEnv [] ⟨"m1", "hello", "Ev"⟩).cacheAfter ∧
      ∀ m2 : Msg String, m2.message_id = "m1" →
        (dispatchMessage demoEnv
            (dispatchMessage demoEnv [] ⟨"m1", "hello", "Ev"⟩).cacheAfter
            m2).handlerCalled = false) :=
  ⟨by decide, rfl,
    dedup_first_success_then_skip demoEnv [] ⟨"m1", "hello", "Ev"⟩ 5
      (by decide) rfl rfl rfl⟩

/-- Claim C2 counterexample: the claim states that the dedup membership
test precedes deserialization and that a message whose key is cached is
skipped with a log entry without being deserialized.  On a message whose
key is cached but whose payload the serializer rejects, the dispatcher
nevertheless calls the serializer, emits no duplicate log entry, and lets
the serializer exception escape — so deserialization happens first. -/
theorem dedup_check_not_before_deserialize_cex :
    dedupKey "app.Consumer" "m1" ∈ (["app.Consumer.m1"] : DedupCache) ∧
    (dispatchMessage demoEnvDesFail ["app.Consumer.m1"]
        ⟨"m1", "x", "Ev"⟩).deserializeCalled = true ∧
    (dispatchMessage demoEnvDesFail ["app.Consumer.m1"]
        ⟨"m1", "x", "Ev"⟩).duplicateLogged = false ∧
    (dispatchMessage demoEnvDesFail ["app.Consumer.m1"]
        ⟨"m1", "x", "Ev"⟩).raised = true :=
  ⟨by decide, rfl, rfl, rfl⟩

/-- Claim C2 as amended: each message is handled in the order NORMALIZE,
DESERIALIZE, DEDUP-CHECK, ROUTE.  The serializer is always invoked; when
it succeeds and the key is already cached the message is skipped with a
log entry — no handler runs, nothing is acknowledged, the cache is
unchanged; when it fails, the dedup check is never reached and no
duplicate log entry is emitted. -/
theorem deserialize_precedes_dedup_check {γ α : Type} (env : DispatchEnv γ α)
    (cache : DedupCache) (m : Msg γ) :
    (dispatchMessage env cache m).deserializeCalled = true ∧
    (∀ d, env.deserialize m.content m.manifest = Except.ok d →
      dedupKey env.identity m.message_id ∈ cache →
      (dispatchMessage env cache m).duplicateLogged = true ∧
      (dispatchMessage env cache m).handlerCalled = false ∧
      (dispatchMessage env cache m).acked = false ∧
      (dispatchMessage env cache m).cacheAfter = cache) ∧
    (∀ e, env.deserialize m.content m.manifest = Except.error e →
      (dispatchMessage env cache m).duplicateLogged = false ∧
      (dispatchMessage env cache m).raised = true) := by
  refine ⟨?_, ?_, ?_⟩
  · unfold dispatchMessage
    cases hd : env.deserialize m.content m.manifest with
    | error e => simp
    | ok d =>
      by_cases hmem : dedupKey env.identity m.message_id ∈ cache
      · simp [hmem]
      · simp [hmem]
        cases hp : env.handler d m.message_id with
        | error e => simp
        | ok u => cases hs : env.storeOk (dedupKey env.identity m.message_id) <;> simp
  · intro d hd hmem
    unfold dispatchMessage
    rw [hd]
    simp [hmem]
  · intro e hd
    unfold dispatchMessage
    rw [hd]
    simp

/-- Witness for the amended claim C2 at a concrete input: a cache already
holding the key of message m1 and a succeeding serializer. -/
theorem deserialize_precedes_dedup_check_witness :
    demoEnv.deserialize "hello" "Ev" = Except.ok 5 ∧
    dedupKey "app.Consumer" "m1" ∈ (["app.Consumer.m1"] : DedupCache) ∧
    ((dispatchMessage demoEnv ["app.Consumer.m1"]
        ⟨"m1", "hello", "Ev"⟩).duplicateLogged = true ∧
      (dispatchMessage demoEnv ["app.Consumer.m1"]
        ⟨"m1", "hello", "Ev"⟩).handlerCalled = false ∧
      (dispatchMessage demoEnv ["app.Consumer.m1"]
        ⟨"m1", "hello", "Ev"⟩).acked = false ∧
      (dispatchMessage demoEnv ["app.Consumer.m1"]
        ⟨"m1", "hello", "Ev"⟩).cacheAfter = ["app.Consumer.m1"]) :=
  ⟨rfl, by decide,
    (deserialize_precedes_dedup_check demoEnv ["app.Consumer.m1"]
        ⟨"m1", "hello", "Ev"⟩).2.1 5 rfl (by decide)⟩

/-- Claim C3 counterexample: the claim states that no pipeline
acknowledges or deletes a message whose deserialization fails, and it
names the legacy MessageConsumer pipeline among its sources.  That
pipeline deletes the message before parsing: on a batch whose single
message has an unparseable body, the call returns no event yet the
message has been deleted. -/
theorem legacy_consumer_deletes_failed_message_cex :
    legacyGetNextEvent demoParse (fun _ => Except.ok ())
        [{ message_id := "m1", body := "not json" }] =
      { deleted := ["m1"], result := none } := rfl

/-- Claim C3 as amended, restricted to the SimpleConsumer dispatch
pipeline: a message on which the serializer or the handler raises is
neither acknowledged nor stored in the dedup cache, which is left
unchanged.  (The legacy MessageConsumer pipeline instead deletes every
retrieved message before parsing it.) -/
theorem failure_no_ack_no_cache {γ α : Type} (env : DispatchEnv γ α)
    (cache : DedupCache) (m : Msg γ) :
    (∀ e, env.deserialize m.content m.manifest = Except.error e →
      (dispatchMessage env cache m).acked = false ∧
      (dispatchMessage env cache m).stored = false ∧
      (dispatchMessage env cache m).cacheAfter = cache) ∧
    (∀ d e, env.deserialize m.content m.manifest = Except.ok d →
      env.handler d m.message_id = Except.error e →
      (dispatchMessage env cache m).acked = false ∧
      (dispatchMessage env cache m).stored = false ∧
      (dispatchMessage env cache m).cacheAfter = cache) := by
  constructor
  · intro e hd
    unfold dispatchMessage
    rw [hd]
    simp
  · intro d e hd hp
    unfold dispatchMessage
    rw [hd]
    simp only []
    by_cases hmem : dedupKey env.identity m.message_id ∈ cache
    · simp [hmem]
    · rw [if_neg hmem, hp]
      exact ⟨rfl, rfl, rfl⟩

/-- Witness for the amended claim C3 at a concrete input: a handler that
raises on message m1. -/
theorem failure_no_ack_no_cache_witness :
    demoEnvProcFail.deserialize "hello" "Ev" = Except.ok 5 ∧
    demoEnvProcFail.handler 5 "m1" = Except.error () ∧
    ((dispatchMessage demoEnvProcFail [] ⟨"m1", "hello", "Ev"⟩).acked = false ∧
      (dispatchMessage demoEnvProcFail [] ⟨"m1", "hello", "Ev"⟩).stored = false ∧
      (dispatchMessage demoEnvProcFail [] ⟨"m1", "hello", "Ev"⟩).cacheAfter = []) :=
  ⟨rfl, rfl,
    (failure_no_ack_no_cache demoEnvProcFail [] ⟨"m1", "hello", "Ev"⟩).2 5 ()
      rfl rfl⟩

/-- Claim C4: the consume loop never terminates because of a failing
message.  Whatever the serializer, handler or store do, every message of
a batch is attempted in order (a dispatch exception is caught per
message, so a failure on message N does not prevent messages N+1..K); and
after any number of iterations the loop has polled exactly once per
iteration, even when retrieval itself raised — the loop runs until
externally cancelled. -/
theorem consume_loop_isolates_failures {γ α : Type} (env : DispatchEnv γ α)
    (batches : Nat → Except Unit (List (Msg γ))) :
    (∀ cache msgs, (consumeBatch env cache msgs).attempted =
      msgs.map Msg.message_id) ∧
    (∀ n, (consumeLoopN env batches n).polls = n) := by
  constructor
  · intro cache msgs
    induction msgs generalizing cache with
    | nil => rfl
    | cons m rest ih => simp [consumeBatch, ih]
  · intro n
    induction n with
    | zero => rfl
    | succ k ih =>
      show (loopIter env (batches k) (consumeLoopN env batches k)).polls = k + 1
      unfold loopIter
      cases batches k <;> simp [ih]

/-- Claim C5: a message that arrived through a topic-forwarding envelope
and a message published directly to the queue via queue_publish, with the
same content and manifest, normalize to the identical content-manifest
pair; and for a body with no nested attribute bag the manifest is taken
from the transport-level message attributes. -/
theorem envelope_direct_normalize_same (id1 id2 c man : String) :
    constructMessage (envelopeRaw id1 c man) =
      Except.ok { message_id := id1, content := .str c, manifest := man } ∧
    constructMessage (directRaw id2 c man) =
      Except.ok { message_id := id2, content := .str c, manifest := man } ∧
    (∀ id content (attrs : TransportAttrs),
      constructMessage { message_id := id, body := .ok (queuePublishBody content),
                         message_attributes := attrs } =
        Except.ok { message_id := id, content := .str content,
                    manifest := pyOrStr "" (transportManifest attrs) }) := by
  refine ⟨?_, ?_, ?_⟩
  · have h : constructMessage (envelopeRaw id1 c man) =
        Except.ok { message_id := id1, content := .str c,
                    manifest := pyOrStr man none } := rfl
    rw [h, pyOrStr_none]
  · by_cases hm : man = ""
    · subst hm
      rfl
    · have h : constructMessage (directRaw id2 c man) =
          Except.ok { message_id := id2, content := .str c,
                      manifest := pyOrStr "" (some man) } := by
        unfold directRaw queuePublishAttrs
        simp only []
        rw [if_neg hm]
        rfl
      rw [h]
      rfl
  · intro id content attrs
    rfl

/-- Claim C6: a consumer accepts a manifest exactly when its listens_to
registry is empty (catch-all) or the manifest is registered; in
particular a consumer registered only for OrderCreated accepts
OrderCreated and rejects OrderCancelled, and a consumer with no
registered handlers accepts every manifest. -/
theorem accepts_iff_empty_or_member (registry : List PyType) (man : String) :
    (accepts registry (some man) = true ↔
      (listens_to registry = [] ∨ man ∈ listens_to registry)) ∧
    accepts [PyType.object, PyType.cls "OrderCreated"] (some "OrderCreated")
      = true ∧
    accepts [PyType.object, PyType.cls "OrderCreated"] (some "OrderCancelled")
      = false ∧
    accepts [PyType.object] (some man) = true := by
  refine ⟨?_, by decide, by decide, rfl⟩
  unfold accepts pyInList
  simp [List.contains, List.elem_eq_mem]

/-- Claim C7, evaluated at the failing input: constructing an Event with a
non-string, non-None ordered argument fails — but with a TypeError raised
by the string concatenation in the logging call, not with the ValueError
the claim describes; construction with None or a string succeeds. -/
theorem event_nonstring_ordered_raises_typeerror :
    eventInit "payments" "Default" (.vInt 5) none =
      Except.error (.typeError "can only concatenate str (not type) to str") ∧
    eventInit "payments" "Default" .vNone none =
      Except.ok { topic := "payments", event_type_name := "Default",
                  ordered := .vNone, event_version := none } ∧
    eventInit "payments" "Default" (.vStr "key1") none =
      Except.ok { topic := "payments", event_type_name := "Default",
                  ordered := .vStr "key1", event_version := none } :=
  ⟨rfl, rfl, rfl⟩

/-- Claim C8 counterexample: the claim quantifies over each backend
implementation, yet the AWS driver creates the queue with no attributes
for a name ending in .fifo, so no FIFO mode and no content-based
deduplication are requested. -/
theorem aws_ignores_fifo_suffix_cex :
    pyEndsWith "orders.fifo" ".fifo" = true ∧
    awsDeclareQueueAttrs "orders.fifo" = [] :=
  ⟨by decide, rfl⟩

/-- Claim C8 as amended: on the creation path of the ElasticMQ backend a
queue name ending in .fifo yields a FIFO queue with content-based
deduplication enabled and any other name yields a queue with default
(non-FIFO) attributes, while the AWS driver creates every queue with
default attributes regardless of the suffix. -/
theorem fifo_suffix_backend_attrs (name : String) :
    (pyEndsWith name ".fifo" = true →
      elasticDeclareCreateAttrs name =
        [("FifoQueue", "true"), ("ContentBasedDeduplication", "true")]) ∧
    (pyEndsWith name ".fifo" = false → elasticDeclareCreateAttrs name = []) ∧
    awsDeclareQueueAttrs name = [] := by
  refine ⟨?_, ?_, rfl⟩
  · intro h
    simp [elasticDeclareCreateAttrs, elasticCreateQueueAttrs, h]
  · intro h
    simp [elasticDeclareCreateAttrs, elasticCreateQueueAttrs, h]

/-- Witness for the amended claim C8 at a concrete FIFO queue name. -/
theorem fifo_suffix_backend_attrs_witness :
    pyEndsWith "payments.fifo" ".fifo" = true ∧
    elasticDeclareCreateAttrs "payments.fifo" =
      [("FifoQueue", "true"), ("ContentBasedDeduplication", "true")] :=
  ⟨by decide, (fifo_suffix_backend_attrs "payments.fifo").1 (by decide)⟩

/-- Claim C9: on a dedup-cache hit the dispatcher invokes no handler,
stores nothing, leaves the cache unchanged and does not acknowledge the
message, so the duplicate stays in flight and will become redeliverable
after the visibility timeout. -/
theorem duplicate_hit_no_ack {γ α : Type} (env : DispatchEnv γ α)
    (cache : DedupCache) (m : Msg γ) (d : α)
    (hdes : env.deserialize m.content m.manifest = Except.ok d)
    (hhit : dedupKey env.identity m.message_id ∈ cache) :
    (dispatchMessage env cache m).handlerCalled = false ∧
    (dispatchMessage env cache m).stored = false ∧
    (dispatchMessage env cache m).acked = false ∧
    (dispatchMessage env cache m).cacheAfter = cache := by
  unfold dispatchMessage
  rw [hdes]
  simp [hhit]

/-- Witness for claim C9 at a concrete input: a cache already holding the
key of message m1. -/
theorem duplicate_hit_no_ack_witness :
    demoEnv.deserialize "hello" "Ev" = Except.ok 5 ∧
    dedupKey "app.Consumer" "m1" ∈ (["app.Consumer.m1"] : DedupCache) ∧
    ((dispatchMessage demoEnv ["app.Consumer.m1"]
        ⟨"m1", "hello", "Ev"⟩).handlerCalled = false ∧
      (dispatchMessage demoEnv ["app.Consumer.m1"]
        ⟨"m1", "hello", "Ev"⟩).stored = false ∧
      (dispatchMessage demoEnv ["app.Consumer.m1"]
        ⟨"m1", "hello", "Ev"⟩).acked = false ∧
      (dispatchMessage demoEnv ["app.Consumer.m1"]
        ⟨"m1", "hello", "Ev"⟩).cacheAfter = ["app.Consumer.m1"]) :=
  ⟨rfl, by decide,
    duplicate_hit_no_ack demoEnv ["app.Consumer.m1"] ⟨"m1", "hello", "Ev"⟩ 5
      rfl (by decide)⟩

/-- Claim C10: when the cache store raises after the handler succeeded, the
exception is only logged; the message is still acknowledged because the
success flag was set before the store, and its key is absent from the
cache afterwards. -/
theorem store_failure_still_acknowledges {γ α : Type} (env : DispatchEnv γ α)
    (cache : DedupCache) (m : Msg γ) (d : α)
    (hmiss : dedupKey env.identity m.message_id ∉ cache)
    (hdes : env.deserialize m.content m.manifest = Except.ok d)
    (hproc : env.handler d m.message_id = Except.ok ())
    (hstore : env.storeOk (dedupKey env.identity m.message_id) = false) :
    (dispatchMessage env cache m).acked = true ∧
    (dispatchMessage env cache m).cacheAfter = cache ∧
    dedupKey env.identity m.message_id ∉ (dispatchMessage env cache m).cacheAfter := by
  have h1 : dispatchMessage env cache m =
      { deserializeCalled := true, handlerCalled := true, duplicateLogged := false,
        stored := false, acked := true, raised := false, cacheAfter := cache } := by
    unfold dispatchMessage
    rw [hdes]
    simp only []
    rw [if_neg hmiss, hproc, hstore]
    simp
  rw [h1]
  exact ⟨rfl, rfl, hmiss⟩

/-- Witness for claim C10 at a concrete input: an environment whose cache
store raises on every key. -/
theorem store_failure_still_acknowledges_witness :
    dedupKey "app.Consumer" "m1" ∉ ([] : DedupCache) ∧
    demoEnvStoreFail.deserialize "hello" "Ev" = Except.ok 5 ∧
    ((dispatchMessage demoEnvStoreFail [] ⟨"m1", "hello", "Ev"⟩).acked = true ∧
      (dispatchMessage demoEnvStoreFail [] ⟨"m1", "hello", "Ev"⟩).cacheAfter = [] ∧
      dedupKey "app.Consumer" "m1" ∉
        (dispatchMessage demoEnvStoreFail [] ⟨"m1", "hello", "Ev"⟩).cacheAfter) :=
  ⟨by decide, rfl,
    store_failure_still_acknowledges demoEnvStoreFail [] ⟨"m1", "hello", "Ev"⟩ 5
      (by decide) rfl rfl rfl⟩

end Melange
